import Mathlib

/-!
Shallow embedding of the parking-marketplace backend
(`backend/app/routers/parking_spots_router.py`, `bookings_router.py`,
`backend/app/services/firebase_service.py`, `backend/app/models/models.py`).

Python floats are modelled as `ℚ` where only field values and order/equality
comparisons matter (rates, prices, coordinates as stored data) and as `ℝ`
inside the Haversine distance computation, which uses transcendental
functions.  `datetime` values are modelled as `Int` timestamps in seconds
(`(a - b).total_seconds()` becomes `a - b`).  The Firestore document store is
modelled as three in-memory collections; a store-generated document id is
passed in explicitly (`newId`).  `HTTPException` outcomes are modelled by
`Except Err`.
-/

inductive VehicleSize where
  | compact
  | midsize
  | large
  | suv
  | any
deriving DecidableEq

inductive BookingStatus where
  | pending
  | approved
  | rejected
  | confirmed
  | completed
  | cancelled
deriving DecidableEq

/-- HTTP error outcomes raised by the routers: 404, 403, 400. -/
inductive Err where
  | notFound
  | forbidden
  | invalidInput
deriving DecidableEq

/-- A document of the `parking_spots` collection (fields written by
`create_parking_spot`). -/
structure ParkingSpot where
  id : String
  address : String
  latitude : ℚ
  longitude : ℚ
  hourly_rate : ℚ
  is_available : Bool
  availability_start : Int
  availability_end : Int
  max_vehicle_size : VehicleSize
  description : String
  image_url : Option String
  owner_id : String
  owner_name : String
  created_at : Int
  updated_at : Int
deriving DecidableEq

/-- A document of the `bookings` collection (fields written by
`create_booking_request`). -/
structure Booking where
  id : String
  spot_id : String
  finder_id : String
  finder_name : String
  finder_email : String
  start_time : Int
  end_time : Int
  total_amount : ℚ
  status : BookingStatus
  message : Option String
  owner_response : Option String
  responded_at : Option Int
  created_at : Int
deriving DecidableEq

/-- A document of the `users` collection (only carried along here: none of
the verified operations reads or writes it). -/
structure UserDoc where
  uid : String
  email : String
  name : String
deriving DecidableEq

/-- The three Firestore collections. -/
structure DB where
  users : List UserDoc
  parking_spots : List ParkingSpot
  bookings : List Booking
deriving DecidableEq

/-! ### Store adapter (`FirebaseService`) -/

/-- Store read `FirebaseService.get_parking_spot`. -/
def get_parking_spot (db : DB) (spot_id : String) : Option ParkingSpot :=
  db.parking_spots.find? (fun s => s.id = spot_id)

/-- Store read `FirebaseService.get_booking`. -/
def get_booking (db : DB) (booking_id : String) : Option Booking :=
  db.bookings.find? (fun b => b.id = booking_id)

/-- Store query `FirebaseService.get_available_parking_spots`:
`where('is_available', '==', True)`. -/
def get_available_parking_spots (db : DB) : List ParkingSpot :=
  db.parking_spots.filter (fun s => s.is_available)

/-- Firestore `document(id).update(fields)` on the `bookings` collection:
the document with the given id gets the fields applied. -/
def update_booking_in (l : List Booking) (booking_id : String) (f : Booking → Booking) :
    List Booking :=
  l.map (fun b => if b.id = booking_id then f b else b)

/-- Firestore `document(id).update(fields)` on the `parking_spots`
collection. -/
def update_spots_in (l : List ParkingSpot) (spot_id : String)
    (f : ParkingSpot → ParkingSpot) : List ParkingSpot :=
  l.map (fun s => if s.id = spot_id then f s else s)

/-! ### Booking lifecycle (`bookings_router.py`) -/

structure BookingCreate where
  spot_id : String
  start_time : Int
  end_time : Int
  message : Option String
  finder_id : String
  finder_name : String
  finder_email : String
deriving DecidableEq

/-- The booking document `create_booking_request` writes:
`hours = (end_time - start_time).total_seconds() / 3600`,
`total_amount = hours * spot["hourly_rate"]`, `status = "pending"`. -/
def new_booking (newId : String) (bd : BookingCreate) (spot : ParkingSpot) (now : Int) :
    Booking :=
  { id := newId
    spot_id := bd.spot_id
    finder_id := bd.finder_id
    finder_name := bd.finder_name
    finder_email := bd.finder_email
    start_time := bd.start_time
    end_time := bd.end_time
    total_amount := ((bd.end_time - bd.start_time : ℤ) : ℚ) / 3600 * spot.hourly_rate
    status := BookingStatus.pending
    message := bd.message
    owner_response := none
    responded_at := none
    created_at := now }

/-- Endpoint `POST /bookings/` (`create_booking_request`). -/
def create_booking_request (uid : String) (bd : BookingCreate) (now : Int)
    (newId : String) (db : DB) : Except Err (DB × String) :=
  if bd.finder_id ≠ uid then .error .forbidden
  else
    match get_parking_spot db bd.spot_id with
    | none => .error .notFound
    | some spot =>
      if spot.is_available = false then .error .invalidInput
      else if bd.start_time < spot.availability_start ∨
          bd.end_time > spot.availability_end then .error .invalidInput
      else .ok ({ db with bookings := db.bookings ++ [new_booking newId bd spot now] }, newId)

/-- The field set `approve_booking_request` passes to `update_booking`. -/
def approve_update (msg : Option String) (now : Int) (b : Booking) : Booking :=
  { b with status := BookingStatus.approved, owner_response := msg, responded_at := some now }

/-- The field set `reject_booking_request` passes to `update_booking`. -/
def reject_update (msg : Option String) (now : Int) (b : Booking) : Booking :=
  { b with status := BookingStatus.rejected, owner_response := msg, responded_at := some now }

/-- The field set `cancel_booking_request` passes to `update_booking`
(no `owner_response`). -/
def cancel_update (now : Int) (b : Booking) : Booking :=
  { b with status := BookingStatus.cancelled, responded_at := some now }

/-- Endpoint `PUT /bookings/{id}/approve` (`approve_booking_request`).  A missing spot
and an owner mismatch both raise 403 (`if not spot or spot["owner_id"] != uid`). -/
def approve_booking_request (uid booking_id : String) (msg : Option String) (now : Int)
    (db : DB) : Except Err (DB × Option Booking) :=
  match get_booking db booking_id with
  | none => .error .notFound
  | some booking =>
    match get_parking_spot db booking.spot_id with
    | none => .error .forbidden
    | some spot =>
      if spot.owner_id ≠ uid then .error .forbidden
      else if booking.status ≠ BookingStatus.pending then .error .invalidInput
      else
        let db2 : DB :=
          { db with bookings := update_booking_in db.bookings booking_id (approve_update msg now) }
        .ok (db2, get_booking db2 booking_id)

/-- Endpoint `PUT /bookings/{id}/reject` (`reject_booking_request`). -/
def reject_booking_request (uid booking_id : String) (msg : Option String) (now : Int)
    (db : DB) : Except Err (DB × Option Booking) :=
  match get_booking db booking_id with
  | none => .error .notFound
  | some booking =>
    match get_parking_spot db booking.spot_id with
    | none => .error .forbidden
    | some spot =>
      if spot.owner_id ≠ uid then .error .forbidden
      else if booking.status ≠ BookingStatus.pending then .error .invalidInput
      else
        let db2 : DB :=
          { db with bookings := update_booking_in db.bookings booking_id (reject_update msg now) }
        .ok (db2, get_booking db2 booking_id)

/-- Endpoint `PUT /bookings/{id}/cancel` (`cancel_booking_request`): finder only;
status must be `pending` or `approved`. -/
def cancel_booking_request (uid booking_id : String) (now : Int) (db : DB) :
    Except Err (DB × Option Booking) :=
  match get_booking db booking_id with
  | none => .error .notFound
  | some booking =>
    if booking.finder_id ≠ uid then .error .forbidden
    else if booking.status ≠ BookingStatus.pending ∧
        booking.status ≠ BookingStatus.approved then .error .invalidInput
    else
      let db2 : DB :=
        { db with bookings := update_booking_in db.bookings booking_id (cancel_update now) }
      .ok (db2, get_booking db2 booking_id)

/-- Endpoint `DELETE /bookings/{id}` (`delete_booking`): caller must be the finder or
the owner of the referenced spot; status must be `cancelled` or `completed`. -/
def delete_booking (uid booking_id : String) (db : DB) : Except Err (DB × Unit) :=
  match get_booking db booking_id with
  | none => .error .notFound
  | some booking =>
    let proceed : Except Err (DB × Unit) :=
      if booking.status ≠ BookingStatus.cancelled ∧
          booking.status ≠ BookingStatus.completed then .error .invalidInput
      else .ok ({ db with bookings := db.bookings.filter (fun b => b.id ≠ booking_id) }, ())
    if booking.finder_id = uid then proceed
    else
      match get_parking_spot db booking.spot_id with
      | none => .error .forbidden
      | some spot => if spot.owner_id = uid then proceed else .error .forbidden

/-! ### Spot management (`parking_spots_router.py`) -/

structure ParkingSpotUpdate where
  address : Option String
  latitude : Option ℚ
  longitude : Option ℚ
  hourly_rate : Option ℚ
  is_available : Option Bool
  availability_start : Option Int
  availability_end : Option Int
  max_vehicle_size : Option VehicleSize
  description : Option String
  image_url : Option String
deriving DecidableEq

/-- The merge `update_parking_spot` performs: every field present in the
payload is written, every absent field keeps its stored value, and
`updated_at` is always refreshed. -/
def apply_spot_update (spot : ParkingSpot) (su : ParkingSpotUpdate) (now : Int) :
    ParkingSpot :=
  { spot with
    address := su.address.getD spot.address
    latitude := su.latitude.getD spot.latitude
    longitude := su.longitude.getD spot.longitude
    hourly_rate := su.hourly_rate.getD spot.hourly_rate
    is_available := su.is_available.getD spot.is_available
    availability_start := su.availability_start.getD spot.availability_start
    availability_end := su.availability_end.getD spot.availability_end
    max_vehicle_size := su.max_vehicle_size.getD spot.max_vehicle_size
    description := su.description.getD spot.description
    image_url := match su.image_url with
      | some v => some v
      | none => spot.image_url
    updated_at := now }

/-- Endpoint `PUT /parking-spots/{id}` (`update_parking_spot`). -/
def update_parking_spot (uid spot_id : String) (su : ParkingSpotUpdate) (now : Int)
    (db : DB) : Except Err (DB × Option ParkingSpot) :=
  match get_parking_spot db spot_id with
  | none => .error .notFound
  | some spot =>
    if spot.owner_id ≠ uid then .error .forbidden
    else
      let db2 : DB :=
        { db with parking_spots :=
            update_spots_in db.parking_spots spot_id (fun s => apply_spot_update s su now) }
      .ok (db2, get_parking_spot db2 spot_id)

/-- Endpoint `DELETE /parking-spots/{id}` (`delete_parking_spot`). -/
def delete_parking_spot (uid spot_id : String) (db : DB) : Except Err (DB × Unit) :=
  match get_parking_spot db spot_id with
  | none => .error .notFound
  | some spot =>
    if spot.owner_id ≠ uid then .error .forbidden
    else .ok ({ db with parking_spots := db.parking_spots.filter (fun s => s.id ≠ spot_id) }, ())

/-- The state a request leaves behind: the written state on success, the
unchanged state when the handler raised (the routers raise before any
write). -/
def db_after {α : Type} (r : Except Err (DB × α)) (db : DB) : DB :=
  match r with
  | .ok (db2, _) => db2
  | .error _ => db

/-! ### Distance and search (`parking_spots_router.py`) -/

/-- Python's `math.atan2(y, x)`: the angle of the point `(x, y)`,
in `(-π, π]`, with `atan2 0 0 = 0`. -/
noncomputable def atan2 (y x : ℝ) : ℝ :=
  if 0 < x then Real.arctan (y / x)
  else if x = 0 ∧ 0 < y then Real.pi / 2
  else if x = 0 ∧ y < 0 then -(Real.pi / 2)
  else if x < 0 ∧ 0 ≤ y then Real.arctan (y / x) + Real.pi
  else if x < 0 ∧ y < 0 then Real.arctan (y / x) - Real.pi
  else 0

/-- Distance utility `calculate_distance`: Haversine distance in meters, Earth radius
6371000 m, `math.radians x = x * π / 180`. -/
noncomputable def calculate_distance (lat1 lon1 lat2 lon2 : ℝ) : ℝ :=
  let R : ℝ := 6371000
  let lat1_rad := lat1 * Real.pi / 180
  let lon1_rad := lon1 * Real.pi / 180
  let lat2_rad := lat2 * Real.pi / 180
  let lon2_rad := lon2 * Real.pi / 180
  let dlat := lat2_rad - lat1_rad
  let dlon := lon2_rad - lon1_rad
  let a := Real.sin (dlat / 2) ^ 2 +
    Real.cos lat1_rad * Real.cos lat2_rad * Real.sin (dlon / 2) ^ 2
  let c := 2 * atan2 (Real.sqrt a) (Real.sqrt (1 - a))
  R * c

/-- The query object `ParkingSpotSearch` (every field optional). -/
structure ParkingSpotSearch where
  latitude : Option ℚ
  longitude : Option ℚ
  radius : Option ℚ
  max_price : Option ℚ
  vehicle_size : Option VehicleSize
  start_time : Option Int
  end_time : Option Int

/-- The `continue` condition of the filter loop in `get_parking_spots`.
Python truthiness: a numeric query parameter participates only when it is
present AND nonzero (`search.latitude and search.longitude and search.radius`,
`search.max_price and ...`); an enum or datetime parameter participates
whenever present. -/
abbrev spot_skipped (search : ParkingSpotSearch) (spot : ParkingSpot) : Prop :=
  (search.latitude.getD 0 ≠ 0 ∧ search.longitude.getD 0 ≠ 0 ∧ search.radius.getD 0 ≠ 0 ∧
    calculate_distance (search.latitude.getD 0 : ℚ) (search.longitude.getD 0 : ℚ)
      (spot.latitude : ℚ) (spot.longitude : ℚ) > ((search.radius.getD 0 : ℚ) : ℝ)) ∨
  (search.max_price.getD 0 ≠ 0 ∧ spot.hourly_rate > search.max_price.getD 0) ∨
  (search.vehicle_size ≠ none ∧
    spot.max_vehicle_size ≠ search.vehicle_size.getD VehicleSize.any) ∨
  ((search.start_time ≠ none ∧ search.end_time ≠ none) ∧
    (spot.availability_start > search.start_time.getD 0 ∨
      spot.availability_end < search.end_time.getD 0))

/-- The filter loop of `get_parking_spots`: a spot is appended to
`filtered_spots` unless one of the four filters hits `continue`. -/
noncomputable def apply_search_filters (search : ParkingSpotSearch)
    (spots : List ParkingSpot) : List ParkingSpot :=
  spots.filter (fun spot => decide (¬ spot_skipped search spot))

/-- The spot list `get_parking_spots` paginates: all available spots, run
through the filter loop when a search object was supplied. -/
noncomputable def filtered_spot_list (db : DB) (search : Option ParkingSpotSearch) :
    List ParkingSpot :=
  match search with
  | some s => apply_search_filters s (get_available_parking_spots db)
  | none => get_available_parking_spots db

/-- The response body of `GET /parking-spots/`. -/
structure SpotsPage where
  spots : List ParkingSpot
  total : ℕ
  page : ℕ
  size : ℕ
  pages : ℕ

/-- Endpoint `GET /parking-spots/` (`get_parking_spots`): filter, then paginate with
`spots[(page-1)*size : (page-1)*size + size]` and
`pages = math.ceil(total / size)`. -/
noncomputable def get_parking_spots (db : DB) (search : Option ParkingSpotSearch)
    (page size : ℕ) : SpotsPage :=
  let spots := filtered_spot_list db search
  let total := spots.length
  let start_idx := (page - 1) * size
  { spots := (spots.drop start_idx).take size
    total := total
    page := page
    size := size
    pages := ⌈(total : ℚ) / (size : ℚ)⌉₊ }

/-- A spot as returned by `get_nearby_parking_spots`, annotated with the
computed `distance`. -/
structure NearbySpot where
  spot : ParkingSpot
  distance : ℝ

/-- The `nearby_spots` list built by the loop of `get_nearby_parking_spots`:
every available spot within `radius`, annotated with its computed distance,
in store order. -/
noncomputable def nearby_annotated (db : DB) (latitude longitude radius : ℚ) :
    List NearbySpot :=
  (get_available_parking_spots db).filterMap (fun spot =>
    let d := calculate_distance (latitude : ℚ) (longitude : ℚ)
      (spot.latitude : ℚ) (spot.longitude : ℚ)
    if d ≤ ((radius : ℚ) : ℝ) then some ⟨spot, d⟩ else none)

/-- Endpoint `GET /parking-spots/nearby` (`get_nearby_parking_spots`): keep available
spots within `radius`, annotate each with its distance, sort ascending by
distance (Python's `list.sort` is the stable sort; insertion sort computes
the same stable result). -/
noncomputable def get_nearby_parking_spots (db : DB) (latitude longitude radius : ℚ) :
    List NearbySpot :=
  (nearby_annotated db latitude longitude radius).insertionSort
    (fun a b => a.distance ≤ b.distance)

/-! ### Concrete fixtures used by the witnesses and counterexamples -/

def wSpot : ParkingSpot :=
  { id := "s1", address := "1 Main St", latitude := 37, longitude := -122,
    hourly_rate := 10, is_available := true, availability_start := 0,
    availability_end := 1000000, max_vehicle_size := VehicleSize.any,
    description := "driveway", image_url := none, owner_id := "olivia",
    owner_name := "Olivia", created_at := 0, updated_at := 0 }

def wBookingPending : Booking :=
  { id := "b1", spot_id := "s1", finder_id := "fred", finder_name := "Fred",
    finder_email := "fred@example.com", start_time := 0, end_time := 7200,
    total_amount := 20, status := BookingStatus.pending, message := none,
    owner_response := none, responded_at := none, created_at := 0 }

def wBookingRejected : Booking :=
  { wBookingPending with id := "b3", status := BookingStatus.rejected }

def wDB : DB :=
  { users := [], parking_spots := [wSpot], bookings := [wBookingPending, wBookingRejected] }

def wBC : BookingCreate :=
  { spot_id := "s1", start_time := 0, end_time := 7200, message := none,
    finder_id := "fred", finder_name := "Fred", finder_email := "fred@example.com" }

def wSpotUpdate : ParkingSpotUpdate :=
  { address := some "2 Oak Ave", latitude := none, longitude := none,
    hourly_rate := some 12, is_available := none, availability_start := none,
    availability_end := none, max_vehicle_size := none, description := none,
    image_url := none }

/-- A spot whose hourly rate is positive, used for the price-filter
counterexamples. -/
def xSpot : ParkingSpot :=
  { id := "x1", address := "3 Pine Rd", latitude := 40, longitude := -74,
    hourly_rate := 5, is_available := true, availability_start := 0,
    availability_end := 1000000, max_vehicle_size := VehicleSize.compact,
    description := "garage", image_url := none, owner_id := "oscar",
    owner_name := "Oscar", created_at := 0, updated_at := 0 }

def xDB : DB := { users := [], parking_spots := [xSpot], bookings := [] }

/-- A search with `max_price = 0` supplied (and no other filter). -/
def xSearchZeroPrice : ParkingSpotSearch :=
  { latitude := none, longitude := none, radius := none, max_price := some 0,
    vehicle_size := none, start_time := none, end_time := none }

/-- A search with `max_price = 10` supplied (and no other filter). -/
def xSearchPrice10 : ParkingSpotSearch :=
  { latitude := none, longitude := none, radius := none, max_price := some 10,
    vehicle_size := none, start_time := none, end_time := none }

/-- A second positive-rate spot, for the C5 counterexample. -/
def ySpot : ParkingSpot :=
  { id := "y1", address := "4 Elm St", latitude := 12, longitude := 34,
    hourly_rate := 7, is_available := true, availability_start := 0,
    availability_end := 1000000, max_vehicle_size := VehicleSize.suv,
    description := "lot", image_url := none, owner_id := "omar",
    owner_name := "Omar", created_at := 0, updated_at := 0 }

/-- A search that supplies boundary value `0` for `max_price` and for
`latitude` (with nonzero longitude and radius also supplied). -/
def ySearchBoundary : ParkingSpotSearch :=
  { latitude := some 0, longitude := some 34, radius := some 100,
    max_price := some 0, vehicle_size := none, start_time := none,
    end_time := none }

/-- Three available spots, for the pagination witness. -/
def pSpot2 : ParkingSpot := { xSpot with id := "x2" }
def pSpot3 : ParkingSpot := { xSpot with id := "x3" }
def pDB : DB := { users := [], parking_spots := [xSpot, pSpot2, pSpot3], bookings := [] }

/-! ### Helper lemmas -/

/-- Firestore `update` on the document with a given key: the first document
`find?` located is afterwards located in its updated form, provided the
update does not touch the key. -/
theorem find?_map_ite {α : Type} (key : α → String) (idv : String) (f : α → α)
    (hf : ∀ x, key (f x) = key x) :
    ∀ (l : List α) (b : α), (l.find? fun x => key x = idv) = some b →
      ((l.map fun x => if key x = idv then f x else x).find? fun x => key x = idv) =
        some (f b)
  | [], b, h => by simp at h
  | a :: l, b, h => by
    by_cases ha : key a = idv
    · rw [List.find?_cons_of_pos _ (by simpa using ha)] at h
      cases h
      simp only [List.map_cons, if_pos ha]
      exact List.find?_cons_of_pos _ (by simpa using hf a ▸ ha)
    · rw [List.find?_cons_of_neg _ (by simpa using ha)] at h
      simp only [List.map_cons, if_neg ha]
      rw [List.find?_cons_of_neg _ (by simpa using ha)]
      exact find?_map_ite key idv f hf l b h

/-- The `update_booking_in` specialisation of `find?_map_ite`, phrased through
`get_booking`. -/
theorem get_booking_update (db : DB) (idv : String) (f : Booking → Booking)
    (hf : ∀ x, (f x).id = x.id) (b : Booking)
    (h : get_booking db idv = some b) :
    get_booking { db with bookings := update_booking_in db.bookings idv f } idv =
      some (f b) := by
  unfold get_booking at h ⊢
  exact find?_map_ite Booking.id idv f hf db.bookings b h

/-- C1.  Booking creation, authenticated finder, spot resolved: the request
fails with InvalidInput (HTTP 400) when the spot's availability flag is false
or the requested window is not contained in the spot's availability window
(`start < availability_start` or `end > availability_end`); otherwise it
succeeds, appending a booking with initial status `pending` and
`total_amount = (end - start) / 3600 * hourly_rate` — fractional hours, no
minimum-duration or non-negative-duration check. -/
theorem create_booking_correct
    (db : DB) (uid newId : String) (bd : BookingCreate) (now : Int) (spot : ParkingSpot)
    (hfinder : bd.finder_id = uid)
    (hspot : get_parking_spot db bd.spot_id = some spot) :
    ((spot.is_available = false ∨ bd.start_time < spot.availability_start ∨
        bd.end_time > spot.availability_end) →
      create_booking_request uid bd now newId db = .error .invalidInput) ∧
    (spot.is_available = true →
      spot.availability_start ≤ bd.start_time →
      bd.end_time ≤ spot.availability_end →
      create_booking_request uid bd now newId db =
        .ok ({ db with bookings := db.bookings ++ [new_booking newId bd spot now] }, newId) ∧
      (new_booking newId bd spot now).status = BookingStatus.pending ∧
      (new_booking newId bd spot now).total_amount =
        ((bd.end_time - bd.start_time : ℤ) : ℚ) / 3600 * spot.hourly_rate) := by
  constructor
  · intro h
    cases hav : spot.is_available with
    | false => simp [create_booking_request, hspot, hfinder, hav]
    | true =>
      have hw : bd.start_time < spot.availability_start ∨
          bd.end_time > spot.availability_end := by
        rcases h with h | h
        · rw [hav] at h; cases h
        · exact h
      simp [create_booking_request, hspot, hfinder, hav, hw]
  · intro hav h1 h2
    refine ⟨?_, rfl, rfl⟩
    have hw : ¬ (bd.start_time < spot.availability_start ∨
        bd.end_time > spot.availability_end) := by
      push_neg
      exact ⟨by omega, by omega⟩
    simp [create_booking_request, hspot, hfinder, hav, hw]

/-- C1 witness: the theorem applied to the concrete store `wDB`, finder
`fred`, spot `s1` (rate 10/h), window `[0, 7200]`; the two-hour window at
rate 10 yields `total_amount = 20`. -/
theorem create_booking_correct_witness :
    (((wSpot.is_available = false ∨ wBC.start_time < wSpot.availability_start ∨
        wBC.end_time > wSpot.availability_end) →
      create_booking_request "fred" wBC 99 "nb" wDB = .error .invalidInput) ∧
    (wSpot.is_available = true →
      wSpot.availability_start ≤ wBC.start_time →
      wBC.end_time ≤ wSpot.availability_end →
      create_booking_request "fred" wBC 99 "nb" wDB =
        .ok ({ wDB with bookings := wDB.bookings ++ [new_booking "nb" wBC wSpot 99] }, "nb") ∧
      (new_booking "nb" wBC wSpot 99).status = BookingStatus.pending ∧
      (new_booking "nb" wBC wSpot 99).total_amount =
        ((wBC.end_time - wBC.start_time : ℤ) : ℚ) / 3600 * wSpot.hourly_rate)) ∧
    (new_booking "nb" wBC wSpot 99).total_amount = 20 :=
  ⟨create_booking_correct wDB "fred" "nb" wBC 99 wSpot (by decide) (by decide),
   by norm_num [new_booking, wBC, wSpot]⟩

/-- C2.  Booking status state machine (booking and its spot resolved, caller
authorized): approve and reject fail with InvalidInput unless the status is
`pending`; cancel (by the finder) fails with InvalidInput unless the status
is `pending` or `approved`; delete fails with InvalidInput unless the status
is `cancelled` or `completed` — so `rejected` bookings are never deletable.
Each successful transition stores `responded_at`, and a second approve on the
already-approved booking fails instead of silently succeeding. -/
theorem booking_state_machine
    (db : DB) (b : Booking) (spot : ParkingSpot) (uid : String) (msg : Option String)
    (now now2 : Int)
    (hb : get_booking db b.id = some b)
    (hs : get_parking_spot db b.spot_id = some spot)
    (howner : spot.owner_id = uid) :
    (b.status ≠ BookingStatus.pending →
      approve_booking_request uid b.id msg now db = .error .invalidInput ∧
      reject_booking_request uid b.id msg now db = .error .invalidInput) ∧
    (b.status = BookingStatus.pending →
      ∃ db2,
        approve_booking_request uid b.id msg now db =
          .ok (db2, some (approve_update msg now b)) ∧
        get_booking db2 b.id = some (approve_update msg now b) ∧
        (approve_update msg now b).responded_at = some now ∧
        approve_booking_request uid b.id msg now2 db2 = .error .invalidInput) ∧
    (b.status = BookingStatus.pending →
      ∃ db2,
        reject_booking_request uid b.id msg now db =
          .ok (db2, some (reject_update msg now b)) ∧
        (reject_update msg now b).responded_at = some now) ∧
    (b.status ≠ BookingStatus.pending ∧ b.status ≠ BookingStatus.approved →
      cancel_booking_request b.finder_id b.id now db = .error .invalidInput) ∧
    (b.status = BookingStatus.pending ∨ b.status = BookingStatus.approved →
      ∃ db2,
        cancel_booking_request b.finder_id b.id now db =
          .ok (db2, some (cancel_update now b)) ∧
        (cancel_update now b).responded_at = some now) ∧
    (b.status ≠ BookingStatus.cancelled ∧ b.status ≠ BookingStatus.completed →
      delete_booking b.finder_id b.id db = .error .invalidInput) ∧
    (b.status = BookingStatus.rejected →
      delete_booking b.finder_id b.id db = .error .invalidInput) := by
  refine ⟨?_, ?_, ?_, ?_, ?_, ?_, ?_⟩
  · intro h
    constructor
    · simp [approve_booking_request, hb, hs, howner, h]
    · simp [reject_booking_request, hb, hs, howner, h]
  · intro hp
    have hupd := get_booking_update db b.id (approve_update msg now) (fun x => rfl) b hb
    refine ⟨_, ?_, hupd, rfl, ?_⟩
    · simp [approve_booking_request, hb, hs, howner, hp, hupd]
    · have hs2 : get_parking_spot
          { db with bookings := update_booking_in db.bookings b.id (approve_update msg now) }
          b.spot_id = some spot := by
        simpa [get_parking_spot] using hs
      simp [approve_booking_request, hupd, hs2, howner, approve_update]
  · intro hp
    have hupd := get_booking_update db b.id (reject_update msg now) (fun x => rfl) b hb
    refine ⟨{ db with bookings := update_booking_in db.bookings b.id (reject_update msg now) },
      ?_, rfl⟩
    simp [reject_booking_request, hb, hs, howner, hp, hupd]
  · intro h
    simp [cancel_booking_request, hb, h.1, h.2]
  · intro hp
    have hupd := get_booking_update db b.id (cancel_update now) (fun x => rfl) b hb
    have hcond : ¬ (b.status ≠ BookingStatus.pending ∧ b.status ≠ BookingStatus.approved) := by
      rcases hp with hp | hp <;> simp [hp]
    refine ⟨{ db with bookings := update_booking_in db.bookings b.id (cancel_update now) },
      ?_, rfl⟩
    simp [cancel_booking_request, hb, hcond, hupd]
  · intro h
    simp [delete_booking, hb, h.1, h.2]
  · intro hr
    simp [delete_booking, hb, hr]

/-- C2 witness: the state machine applied to the concrete store `wDB`
(booking `b1` pending on spot `s1` owned by `olivia`, finder `fred`). -/
theorem booking_state_machine_witness :
    (wBookingPending.status ≠ BookingStatus.pending →
      approve_booking_request "olivia" "b1" none 7 wDB = .error .invalidInput ∧
      reject_booking_request "olivia" "b1" none 7 wDB = .error .invalidInput) ∧
    (wBookingPending.status = BookingStatus.pending →
      ∃ db2,
        approve_booking_request "olivia" "b1" none 7 wDB =
          .ok (db2, some (approve_update none 7 wBookingPending)) ∧
        get_booking db2 "b1" = some (approve_update none 7 wBookingPending) ∧
        (approve_update none 7 wBookingPending).responded_at = some 7 ∧
        approve_booking_request "olivia" "b1" none 8 db2 = .error .invalidInput) ∧
    (wBookingPending.status = BookingStatus.pending →
      ∃ db2,
        reject_booking_request "olivia" "b1" none 7 wDB =
          .ok (db2, some (reject_update none 7 wBookingPending)) ∧
        (reject_update none 7 wBookingPending).responded_at = some 7) ∧
    (wBookingPending.status ≠ BookingStatus.pending ∧
        wBookingPending.status ≠ BookingStatus.approved →
      cancel_booking_request "fred" "b1" 7 wDB = .error .invalidInput) ∧
    (wBookingPending.status = BookingStatus.pending ∨
        wBookingPending.status = BookingStatus.approved →
      ∃ db2,
        cancel_booking_request "fred" "b1" 7 wDB =
          .ok (db2, some (cancel_update 7 wBookingPending)) ∧
        (cancel_update 7 wBookingPending).responded_at = some 7) ∧
    (wBookingPending.status ≠ BookingStatus.cancelled ∧
        wBookingPending.status ≠ BookingStatus.completed →
      delete_booking "fred" "b1" wDB = .error .invalidInput) ∧
    (wBookingPending.status = BookingStatus.rejected →
      delete_booking "fred" "b1" wDB = .error .invalidInput) :=
  booking_state_machine wDB wBookingPending wSpot "olivia" none 7 8
    (by decide) (by decide) (by decide)

/-- C3.  Ownership authorization: with the spot resolved to an owner other
than the caller (and the booking resolved to another finder, its spot to
another owner), updateSpot and deleteSpot, approve/reject (owner-scoped) and
cancel (finder-scoped) all fail with Forbidden — whatever the rest of the
payload — and leave the store unchanged. -/
theorem ownership_forbidden
    (db : DB) (uid spot_id booking_id : String) (spot spot2 : ParkingSpot) (b : Booking)
    (su : ParkingSpotUpdate) (msg : Option String) (now : Int)
    (hs : get_parking_spot db spot_id = some spot)
    (hso : spot.owner_id ≠ uid)
    (hb : get_booking db booking_id = some b)
    (hbs : get_parking_spot db b.spot_id = some spot2)
    (hs2o : spot2.owner_id ≠ uid)
    (hf : b.finder_id ≠ uid) :
    update_parking_spot uid spot_id su now db = .error .forbidden ∧
    db_after (update_parking_spot uid spot_id su now db) db = db ∧
    delete_parking_spot uid spot_id db = .error .forbidden ∧
    db_after (delete_parking_spot uid spot_id db) db = db ∧
    approve_booking_request uid booking_id msg now db = .error .forbidden ∧
    db_after (approve_booking_request uid booking_id msg now db) db = db ∧
    reject_booking_request uid booking_id msg now db = .error .forbidden ∧
    db_after (reject_booking_request uid booking_id msg now db) db = db ∧
    cancel_booking_request uid booking_id now db = .error .forbidden ∧
    db_after (cancel_booking_request uid booking_id now db) db = db := by
  have h1 : update_parking_spot uid spot_id su now db = .error .forbidden := by
    simp [update_parking_spot, hs, hso]
  have h2 : delete_parking_spot uid spot_id db = .error .forbidden := by
    simp [delete_parking_spot, hs, hso]
  have h3 : approve_booking_request uid booking_id msg now db = .error .forbidden := by
    simp [approve_booking_request, hb, hbs, hs2o]
  have h4 : reject_booking_request uid booking_id msg now db = .error .forbidden := by
    simp [reject_booking_request, hb, hbs, hs2o]
  have h5 : cancel_booking_request uid booking_id now db = .error .forbidden := by
    simp [cancel_booking_request, hb, hf]
  exact ⟨h1, by simp [db_after, h1], h2, by simp [db_after, h2], h3, by simp [db_after, h3],
    h4, by simp [db_after, h4], h5, by simp [db_after, h5]⟩

/-- C3 witness: caller `mallory` against spot `s1` (owner `olivia`) and
booking `b1` (finder `fred`). -/
theorem ownership_forbidden_witness :
    update_parking_spot "mallory" "s1" wSpotUpdate 5 wDB = .error .forbidden ∧
    db_after (update_parking_spot "mallory" "s1" wSpotUpdate 5 wDB) wDB = wDB ∧
    delete_parking_spot "mallory" "s1" wDB = .error .forbidden ∧
    db_after (delete_parking_spot "mallory" "s1" wDB) wDB = wDB ∧
    approve_booking_request "mallory" "b1" none 5 wDB = .error .forbidden ∧
    db_after (approve_booking_request "mallory" "b1" none 5 wDB) wDB = wDB ∧
    reject_booking_request "mallory" "b1" none 5 wDB = .error .forbidden ∧
    db_after (reject_booking_request "mallory" "b1" none 5 wDB) wDB = wDB ∧
    cancel_booking_request "mallory" "b1" 5 wDB = .error .forbidden ∧
    db_after (cancel_booking_request "mallory" "b1" 5 wDB) wDB = wDB :=
  ownership_forbidden wDB "mallory" "s1" "b1" wSpot wSpot wBookingPending wSpotUpdate none 5
    (by decide) (by decide) (by decide) (by decide) (by decide) (by decide)

/-- C9.  Spot update frame condition (spot resolved, caller is the owner):
the update succeeds, rewrites exactly the supplied fields, always refreshes
`updated_at`, and every field not supplied — and every field not present in
the payload model at all (id, owner, created_at) — keeps its previous
value. -/
theorem update_spot_frame
    (db : DB) (uid : String) (spot : ParkingSpot) (su : ParkingSpotUpdate) (now : Int)
    (hs : get_parking_spot db spot.id = some spot)
    (ho : spot.owner_id = uid) :
    update_parking_spot uid spot.id su now db =
      .ok ({ db with parking_spots :=
          update_spots_in db.parking_spots spot.id (fun s => apply_spot_update s su now) },
        some (apply_spot_update spot su now)) ∧
    (apply_spot_update spot su now).updated_at = now ∧
    (apply_spot_update spot su now).id = spot.id ∧
    (apply_spot_update spot su now).owner_id = spot.owner_id ∧
    (apply_spot_update spot su now).owner_name = spot.owner_name ∧
    (apply_spot_update spot su now).created_at = spot.created_at ∧
    (su.address = none → (apply_spot_update spot su now).address = spot.address) ∧
    (∀ v, su.address = some v → (apply_spot_update spot su now).address = v) ∧
    (su.latitude = none → (apply_spot_update spot su now).latitude = spot.latitude) ∧
    (∀ v, su.latitude = some v → (apply_spot_update spot su now).latitude = v) ∧
    (su.longitude = none → (apply_spot_update spot su now).longitude = spot.longitude) ∧
    (∀ v, su.longitude = some v → (apply_spot_update spot su now).longitude = v) ∧
    (su.hourly_rate = none → (apply_spot_update spot su now).hourly_rate = spot.hourly_rate) ∧
    (∀ v, su.hourly_rate = some v → (apply_spot_update spot su now).hourly_rate = v) ∧
    (su.is_available = none →
      (apply_spot_update spot su now).is_available = spot.is_available) ∧
    (∀ v, su.is_available = some v → (apply_spot_update spot su now).is_available = v) ∧
    (su.availability_start = none →
      (apply_spot_update spot su now).availability_start = spot.availability_start) ∧
    (∀ v, su.availability_start = some v →
      (apply_spot_update spot su now).availability_start = v) ∧
    (su.availability_end = none →
      (apply_spot_update spot su now).availability_end = spot.availability_end) ∧
    (∀ v, su.availability_end = some v →
      (apply_spot_update spot su now).availability_end = v) ∧
    (su.max_vehicle_size = none →
      (apply_spot_update spot su now).max_vehicle_size = spot.max_vehicle_size) ∧
    (∀ v, su.max_vehicle_size = some v →
      (apply_spot_update spot su now).max_vehicle_size = v) ∧
    (su.description = none →
      (apply_spot_update spot su now).description = spot.description) ∧
    (∀ v, su.description = some v → (apply_spot_update spot su now).description = v) ∧
    (su.image_url = none → (apply_spot_update spot su now).image_url = spot.image_url) ∧
    (∀ v, su.image_url = some v → (apply_spot_update spot su now).image_url = some v) := by
  have hupd : get_parking_spot
      { db with parking_spots :=
          update_spots_in db.parking_spots spot.id (fun s => apply_spot_update s su now) }
      spot.id = some (apply_spot_update spot su now) := by
    unfold get_parking_spot at hs ⊢
    unfold update_spots_in
    exact find?_map_ite ParkingSpot.id spot.id (fun s => apply_spot_update s su now)
      (fun x => rfl) db.parking_spots spot hs
  refine ⟨by simp [update_parking_spot, hs, ho, hupd], rfl, rfl, rfl, rfl, rfl,
    fun h => by simp [apply_spot_update, h], fun v h => by simp [apply_spot_update, h],
    fun h => by simp [apply_spot_update, h], fun v h => by simp [apply_spot_update, h],
    fun h => by simp [apply_spot_update, h], fun v h => by simp [apply_spot_update, h],
    fun h => by simp [apply_spot_update, h], fun v h => by simp [apply_spot_update, h],
    fun h => by simp [apply_spot_update, h], fun v h => by simp [apply_spot_update, h],
    fun h => by simp [apply_spot_update, h], fun v h => by simp [apply_spot_update, h],
    fun h => by simp [apply_spot_update, h], fun v h => by simp [apply_spot_update, h],
    fun h => by simp [apply_spot_update, h], fun v h => by simp [apply_spot_update, h],
    fun h => by simp [apply_spot_update, h], fun v h => by simp [apply_spot_update, h],
    fun h => by simp [apply_spot_update, h], fun v h => by simp [apply_spot_update, h]⟩

/-- C9 witness: owner `olivia` updates spot `s1` with a payload supplying
only `address` and `hourly_rate`. -/
theorem update_spot_frame_witness :
    update_parking_spot "olivia" "s1" wSpotUpdate 123 wDB =
      .ok ({ wDB with parking_spots :=
          update_spots_in wDB.parking_spots "s1" (fun s => apply_spot_update s wSpotUpdate 123) },
        some (apply_spot_update wSpot wSpotUpdate 123)) ∧
    (apply_spot_update wSpot wSpotUpdate 123).updated_at = 123 ∧
    (apply_spot_update wSpot wSpotUpdate 123).id = wSpot.id ∧
    (apply_spot_update wSpot wSpotUpdate 123).owner_id = wSpot.owner_id ∧
    (apply_spot_update wSpot wSpotUpdate 123).owner_name = wSpot.owner_name ∧
    (apply_spot_update wSpot wSpotUpdate 123).created_at = wSpot.created_at ∧
    (wSpotUpdate.address = none →
      (apply_spot_update wSpot wSpotUpdate 123).address = wSpot.address) ∧
    (∀ v, wSpotUpdate.address = some v →
      (apply_spot_update wSpot wSpotUpdate 123).address = v) ∧
    (wSpotUpdate.latitude = none →
      (apply_spot_update wSpot wSpotUpdate 123).latitude = wSpot.latitude) ∧
    (∀ v, wSpotUpdate.latitude = some v →
      (apply_spot_update wSpot wSpotUpdate 123).latitude = v) ∧
    (wSpotUpdate.longitude = none →
      (apply_spot_update wSpot wSpotUpdate 123).longitude = wSpot.longitude) ∧
    (∀ v, wSpotUpdate.longitude = some v →
      (apply_spot_update wSpot wSpotUpdate 123).longitude = v) ∧
    (wSpotUpdate.hourly_rate = none →
      (apply_spot_update wSpot wSpotUpdate 123).hourly_rate = wSpot.hourly_rate) ∧
    (∀ v, wSpotUpdate.hourly_rate = some v →
      (apply_spot_update wSpot wSpotUpdate 123).hourly_rate = v) ∧
    (wSpotUpdate.is_available = none →
      (apply_spot_update wSpot wSpotUpdate 123).is_available = wSpot.is_available) ∧
    (∀ v, wSpotUpdate.is_available = some v →
      (apply_spot_update wSpot wSpotUpdate 123).is_available = v) ∧
    (wSpotUpdate.availability_start = none →
      (apply_spot_update wSpot wSpotUpdate 123).availability_start = wSpot.availability_start) ∧
    (∀ v, wSpotUpdate.availability_start = some v →
      (apply_spot_update wSpot wSpotUpdate 123).availability_start = v) ∧
    (wSpotUpdate.availability_end = none →
      (apply_spot_update wSpot wSpotUpdate 123).availability_end = wSpot.availability_end) ∧
    (∀ v, wSpotUpdate.availability_end = some v →
      (apply_spot_update wSpot wSpotUpdate 123).availability_end = v) ∧
    (wSpotUpdate.max_vehicle_size = none →
      (apply_spot_update wSpot wSpotUpdate 123).max_vehicle_size = wSpot.max_vehicle_size) ∧
    (∀ v, wSpotUpdate.max_vehicle_size = some v →
      (apply_spot_update wSpot wSpotUpdate 123).max_vehicle_size = v) ∧
    (wSpotUpdate.description = none →
      (apply_spot_update wSpot wSpotUpdate 123).description = wSpot.description) ∧
    (∀ v, wSpotUpdate.description = some v →
      (apply_spot_update wSpot wSpotUpdate 123).description = v) ∧
    (wSpotUpdate.image_url = none →
      (apply_spot_update wSpot wSpotUpdate 123).image_url = wSpot.image_url) ∧
    (∀ v, wSpotUpdate.image_url = some v →
      (apply_spot_update wSpot wSpotUpdate 123).image_url = some v) :=
  update_spot_frame wDB "olivia" wSpot wSpotUpdate 123 (by decide) (by decide)

/-- On success, booking creation writes only the `bookings` collection. -/
theorem create_booking_ok_frame (uid newId : String) (bd : BookingCreate) (now : Int)
    (db db2 : DB) (r : String)
    (h : create_booking_request uid bd now newId db = .ok (db2, r)) :
    db2.users = db.users ∧ db2.parking_spots = db.parking_spots := by
  unfold create_booking_request at h
  split at h
  · simp at h
  · split at h
    · simp at h
    · split at h
      · simp at h
      · split at h
        · simp at h
        · simp only [Except.ok.injEq, Prod.mk.injEq] at h
          obtain ⟨h1, -⟩ := h
          subst h1
          exact ⟨rfl, rfl⟩

/-- On success, approve writes only the `bookings` collection. -/
theorem approve_booking_ok_frame (uid booking_id : String) (msg : Option String)
    (now : Int) (db db2 : DB) (r : Option Booking)
    (h : approve_booking_request uid booking_id msg now db = .ok (db2, r)) :
    db2.users = db.users ∧ db2.parking_spots = db.parking_spots := by
  unfold approve_booking_request at h
  split at h
  · simp at h
  · split at h
    · simp at h
    · split at h
      · simp at h
      · split at h
        · simp at h
        · simp only [Except.ok.injEq, Prod.mk.injEq] at h
          obtain ⟨h1, -⟩ := h
          subst h1
          exact ⟨rfl, rfl⟩

/-- On success, reject writes only the `bookings` collection. -/
theorem reject_booking_ok_frame (uid booking_id : String) (msg : Option String)
    (now : Int) (db db2 : DB) (r : Option Booking)
    (h : reject_booking_request uid booking_id msg now db = .ok (db2, r)) :
    db2.users = db.users ∧ db2.parking_spots = db.parking_spots := by
  unfold reject_booking_request at h
  split at h
  · simp at h
  · split at h
    · simp at h
    · split at h
      · simp at h
      · split at h
        · simp at h
        · simp only [Except.ok.injEq, Prod.mk.injEq] at h
          obtain ⟨h1, -⟩ := h
          subst h1
          exact ⟨rfl, rfl⟩

/-- On success, cancel writes only the `bookings` collection. -/
theorem cancel_booking_ok_frame (uid booking_id : String) (now : Int)
    (db db2 : DB) (r : Option Booking)
    (h : cancel_booking_request uid booking_id now db = .ok (db2, r)) :
    db2.users = db.users ∧ db2.parking_spots = db.parking_spots := by
  unfold cancel_booking_request at h
  split at h
  · simp at h
  · split at h
    · simp at h
    · split at h
      · simp at h
      · simp only [Except.ok.injEq, Prod.mk.injEq] at h
        obtain ⟨h1, -⟩ := h
        subst h1
        exact ⟨rfl, rfl⟩

/-- On success, delete writes only the `bookings` collection. -/
theorem delete_booking_ok_frame (uid booking_id : String) (db db2 : DB) (r : Unit)
    (h : delete_booking uid booking_id db = .ok (db2, r)) :
    db2.users = db.users ∧ db2.parking_spots = db.parking_spots := by
  unfold delete_booking at h
  split at h
  · simp at h
  · simp only at h
    split at h
    · split at h
      · simp at h
      · simp only [Except.ok.injEq, Prod.mk.injEq] at h
        obtain ⟨h1, -⟩ := h
        subst h1
        exact ⟨rfl, rfl⟩
    · split at h
      · simp at h
      · split at h
        · split at h
          · simp at h
          · simp only [Except.ok.injEq, Prod.mk.injEq] at h
            obtain ⟨h1, -⟩ := h
            subst h1
            exact ⟨rfl, rfl⟩
        · simp at h

/-- C10.  Atomicity of failed booking operations: every validation and
authorization check precedes the single store write, so a call that fails
(NotFound, Forbidden or InvalidInput — the only errors the model produces)
leaves all three collections exactly as they were; and even a successful
call never touches the `users` or `parking_spots` collections. -/
theorem booking_ops_atomic
    (db : DB) (uid newId booking_id : String) (bd : BookingCreate) (msg : Option String)
    (now : Int) :
    (∀ e, create_booking_request uid bd now newId db = .error e →
      db_after (create_booking_request uid bd now newId db) db = db) ∧
    (∀ e, approve_booking_request uid booking_id msg now db = .error e →
      db_after (approve_booking_request uid booking_id msg now db) db = db) ∧
    (∀ e, reject_booking_request uid booking_id msg now db = .error e →
      db_after (reject_booking_request uid booking_id msg now db) db = db) ∧
    (∀ e, cancel_booking_request uid booking_id now db = .error e →
      db_after (cancel_booking_request uid booking_id now db) db = db) ∧
    (∀ e, delete_booking uid booking_id db = .error e →
      db_after (delete_booking uid booking_id db) db = db) ∧
    (db_after (create_booking_request uid bd now newId db) db).users = db.users ∧
    (db_after (create_booking_request uid bd now newId db) db).parking_spots =
      db.parking_spots ∧
    (db_after (approve_booking_request uid booking_id msg now db) db).users = db.users ∧
    (db_after (approve_booking_request uid booking_id msg now db) db).parking_spots =
      db.parking_spots ∧
    (db_after (reject_booking_request uid booking_id msg now db) db).users = db.users ∧
    (db_after (reject_booking_request uid booking_id msg now db) db).parking_spots =
      db.parking_spots ∧
    (db_after (cancel_booking_request uid booking_id now db) db).users = db.users ∧
    (db_after (cancel_booking_request uid booking_id now db) db).parking_spots =
      db.parking_spots ∧
    (db_after (delete_booking uid booking_id db) db).users = db.users ∧
    (db_after (delete_booking uid booking_id db) db).parking_spots = db.parking_spots := by
  refine ⟨fun e h => by simp [db_after, h], fun e h => by simp [db_after, h],
    fun e h => by simp [db_after, h], fun e h => by simp [db_after, h],
    fun e h => by simp [db_after, h], ?_, ?_, ?_, ?_, ?_, ?_, ?_, ?_, ?_, ?_⟩
  · cases hr : create_booking_request uid bd now newId db with
    | error e => simp [db_after]
    | ok p => simpa [db_after] using (create_booking_ok_frame uid newId bd now db p.1 p.2
        (by rw [hr])).1
  · cases hr : create_booking_request uid bd now newId db with
    | error e => simp [db_after]
    | ok p => simpa [db_after] using (create_booking_ok_frame uid newId bd now db p.1 p.2
        (by rw [hr])).2
  · cases hr : approve_booking_request uid booking_id msg now db with
    | error e => simp [db_after]
    | ok p => simpa [db_after] using (approve_booking_ok_frame uid booking_id msg now db p.1 p.2
        (by rw [hr])).1
  · cases hr : approve_booking_request uid booking_id msg now db with
    | error e => simp [db_after]
    | ok p => simpa [db_after] using (approve_booking_ok_frame uid booking_id msg now db p.1 p.2
        (by rw [hr])).2
  · cases hr : reject_booking_request uid booking_id msg now db with
    | error e => simp [db_after]
    | ok p => simpa [db_after] using (reject_booking_ok_frame uid booking_id msg now db p.1 p.2
        (by rw [hr])).1
  · cases hr : reject_booking_request uid booking_id msg now db with
    | error e => simp [db_after]
    | ok p => simpa [db_after] using (reject_booking_ok_frame uid booking_id msg now db p.1 p.2
        (by rw [hr])).2
  · cases hr : cancel_booking_request uid booking_id now db with
    | error e => simp [db_after]
    | ok p => simpa [db_after] using (cancel_booking_ok_frame uid booking_id now db p.1 p.2
        (by rw [hr])).1
  · cases hr : cancel_booking_request uid booking_id now db with
    | error e => simp [db_after]
    | ok p => simpa [db_after] using (cancel_booking_ok_frame uid booking_id now db p.1 p.2
        (by rw [hr])).2
  · cases hr : delete_booking uid booking_id db with
    | error e => simp [db_after]
    | ok p => simpa [db_after] using (delete_booking_ok_frame uid booking_id db p.1 p.2
        (by rw [hr])).1
  · cases hr : delete_booking uid booking_id db with
    | error e => simp [db_after]
    | ok p => simpa [db_after] using (delete_booking_ok_frame uid booking_id db p.1 p.2
        (by rw [hr])).2

/-- Membership in the filter loop's output: a spot survives exactly when it
was a candidate and no filter drops it, where the distance and price filters
participate only when their parameters are present and nonzero (Python
truthiness), and the vehicle-size and time-window filters whenever their
parameters are present. -/
theorem mem_apply_search_filters (s : ParkingSpotSearch) (spots : List ParkingSpot)
    (x : ParkingSpot) :
    x ∈ apply_search_filters s spots ↔
      x ∈ spots ∧
      ((s.latitude.getD 0 ≠ 0 ∧ s.longitude.getD 0 ≠ 0 ∧ s.radius.getD 0 ≠ 0) →
        calculate_distance (s.latitude.getD 0 : ℚ) (s.longitude.getD 0 : ℚ)
          (x.latitude : ℚ) (x.longitude : ℚ) ≤ ((s.radius.getD 0 : ℚ) : ℝ)) ∧
      (s.max_price.getD 0 ≠ 0 → x.hourly_rate ≤ s.max_price.getD 0) ∧
      (∀ v, s.vehicle_size = some v → x.max_vehicle_size = v) ∧
      (∀ t1 t2, s.start_time = some t1 → s.end_time = some t2 →
        x.availability_start ≤ t1 ∧ t2 ≤ x.availability_end) := by
  unfold apply_search_filters
  rw [List.mem_filter, decide_eq_true_eq]
  apply and_congr_right
  intro _
  constructor
  · intro h
    refine ⟨?_, ?_, ?_, ?_⟩
    · rintro ⟨h1, h2, h3⟩
      by_contra hd
      exact h (Or.inl ⟨h1, h2, h3, lt_of_not_le hd⟩)
    · intro hp
      by_contra hr
      exact h (Or.inr (Or.inl ⟨hp, lt_of_not_le hr⟩))
    · intro v hv
      by_contra hne
      refine h (Or.inr (Or.inr (Or.inl ⟨by simp [hv], ?_⟩)))
      rw [hv]
      exact hne
    · intro t1 t2 h1 h2
      constructor
      · by_contra hlt
        refine h (Or.inr (Or.inr (Or.inr ⟨⟨by simp [h1], by simp [h2]⟩, Or.inl ?_⟩)))
        rw [h1]
        simp only [Option.getD_some]
        omega
      · by_contra hlt
        refine h (Or.inr (Or.inr (Or.inr ⟨⟨by simp [h1], by simp [h2]⟩, Or.inr ?_⟩)))
        rw [h2]
        simp only [Option.getD_some]
        omega
  · rintro ⟨hdist, hprice, hveh, htime⟩ hskip
    rcases hskip with ⟨h1, h2, h3, hd⟩ | ⟨hp, hr⟩ | ⟨hv, hne⟩ | ⟨⟨hst, het⟩, hw⟩
    · exact absurd (hdist ⟨h1, h2, h3⟩) (not_le.2 hd)
    · exact absurd (hprice hp) (not_le.2 hr)
    · obtain ⟨v, hv2⟩ := Option.ne_none_iff_exists'.1 hv
      refine hne ?_
      rw [hv2, Option.getD_some]
      exact hveh v hv2
    · obtain ⟨t1, h1⟩ := Option.ne_none_iff_exists'.1 hst
      obtain ⟨t2, h2⟩ := Option.ne_none_iff_exists'.1 het
      have ht := htime t1 t2 h1 h2
      rcases hw with hw | hw
      · rw [h1, Option.getD_some] at hw
        omega
      · rw [h2, Option.getD_some] at hw
        omega

/-- C4 counterexample: `max_price = 0` is supplied, yet the spot with hourly
rate `5 > 0` is returned — Python's `if search.max_price and ...` treats a
supplied `0` as absent, so the price filter is skipped. -/
theorem max_price_filter_counterexample :
    xSearchZeroPrice.max_price = some 0 ∧
    xSpot ∈ (get_parking_spots xDB (some xSearchZeroPrice) 1 20).spots ∧
    xSpot.hourly_rate > 0 :=
  ⟨rfl, by decide, by decide⟩

/-- C4 (amended).  listSpots with a supplied nonzero `max_price = X` returns
no spot with hourly_rate strictly greater than `X` (for `X = 0` the filter is
skipped); and listSpots with no filters returns exactly the full
available-spot set, paginated. -/
theorem max_price_filter_correct
    (db : DB) (s : ParkingSpotSearch) (X : ℚ) (page size : ℕ)
    (hX : s.max_price = some X) (hX0 : X ≠ 0) :
    (∀ x ∈ (get_parking_spots db (some s) page size).spots, x.hourly_rate ≤ X) ∧
    (get_parking_spots db none page size).spots =
      ((get_available_parking_spots db).drop ((page - 1) * size)).take size ∧
    (get_parking_spots db none page size).total =
      (get_available_parking_spots db).length := by
  refine ⟨?_, rfl, rfl⟩
  intro x hx
  have hx2 : x ∈ apply_search_filters s (get_available_parking_spots db) :=
    List.mem_of_mem_drop (List.mem_of_mem_take hx)
  have hm := (mem_apply_search_filters s (get_available_parking_spots db) x).1 hx2
  have hp := hm.2.2.1
  rw [hX, Option.getD_some] at hp
  exact hp hX0

/-- C4 witness: the amended theorem at store `xDB` (one available spot of
rate 5) and search `max_price = 10`. -/
theorem max_price_filter_correct_witness :
    (∀ x ∈ (get_parking_spots xDB (some xSearchPrice10) 1 20).spots,
      x.hourly_rate ≤ 10) ∧
    (get_parking_spots xDB none 1 20).spots =
      ((get_available_parking_spots xDB).drop ((1 - 1) * 20)).take 20 ∧
    (get_parking_spots xDB none 1 20).total =
      (get_available_parking_spots xDB).length :=
  max_price_filter_correct xDB xSearchPrice10 10 1 20 rfl (by norm_num)

/-- C5 counterexample: the search supplies `max_price = 0` (and also
`latitude = 0` with nonzero longitude and radius), yet the spot with hourly
rate `7 > 0` survives the filter loop: a supplied boundary value `0` does not
get its filter applied. -/
theorem filter_boundary_counterexample :
    ySearchBoundary.max_price = some 0 ∧
    ySearchBoundary.latitude = some 0 ∧
    ySearchBoundary.longitude = some 34 ∧
    ySearchBoundary.radius = some 100 ∧
    ySpot ∈ apply_search_filters ySearchBoundary [ySpot] ∧
    ySpot.hourly_rate > 0 :=
  ⟨rfl, rfl, rfl, rfl, by decide, by decide⟩

/-- C5 (amended).  Filter application in `get_parking_spots`: a spot is kept
iff it is a candidate and passes every active filter, where the radial
distance filter is active only when latitude, longitude and radius are all
supplied and nonzero, the price filter only when `max_price` is supplied and
nonzero (a supplied `0` disables the filter instead of applying it), the
exact vehicle-size filter whenever `vehicle_size` is supplied, and the
time-window filter whenever both bounds are supplied — keeping a spot exactly
when `availability_start ≤ start` and `availability_end ≥ end`. -/
theorem search_filters_semantics (s : ParkingSpotSearch) (spots : List ParkingSpot)
    (x : ParkingSpot) :
    x ∈ apply_search_filters s spots ↔
      x ∈ spots ∧
      ((s.latitude.getD 0 ≠ 0 ∧ s.longitude.getD 0 ≠ 0 ∧ s.radius.getD 0 ≠ 0) →
        calculate_distance (s.latitude.getD 0 : ℚ) (s.longitude.getD 0 : ℚ)
          (x.latitude : ℚ) (x.longitude : ℚ) ≤ ((s.radius.getD 0 : ℚ) : ℝ)) ∧
      (s.max_price.getD 0 ≠ 0 → x.hourly_rate ≤ s.max_price.getD 0) ∧
      (∀ v, s.vehicle_size = some v → x.max_vehicle_size = v) ∧
      (∀ t1 t2, s.start_time = some t1 → s.end_time = some t2 →
        x.availability_start ≤ t1 ∧ t2 ≤ x.availability_end) :=
  mem_apply_search_filters s spots x

/-- Over naturals, `math.ceil(t / s)` equals `(t + s - 1) / s`. -/
theorem ceil_div_nat (t s : ℕ) (hs : 0 < s) :
    ⌈(t : ℚ) / (s : ℚ)⌉₊ = (t + s - 1) / s := by
  have hsQ : (0 : ℚ) < (s : ℚ) := by exact_mod_cast hs
  rcases Nat.eq_zero_or_pos t with ht | ht
  · subst ht
    have h1 : (s - 1) / s = 0 := Nat.div_eq_of_lt (by omega)
    simpa using h1.symm
  · have hks : ((t + s - 1) / s) * s ≤ t + s - 1 := Nat.div_mul_le_self _ _
    have hmod : ((t + s - 1) / s) * s + (t + s - 1) % s = t + s - 1 :=
      Nat.div_add_mod' _ _
    have hmlt : (t + s - 1) % s < s := Nat.mod_lt _ hs
    have hub : t ≤ ((t + s - 1) / s) * s := by omega
    apply le_antisymm
    · rw [Nat.ceil_le, div_le_iff₀ hsQ]
      exact_mod_cast hub
    · obtain ⟨k, hk⟩ : ∃ k, (t + s - 1) / s = k + 1 := by
        have hk1 : 1 ≤ (t + s - 1) / s := by
          rw [Nat.le_div_iff_mul_le hs]
          omega
        exact ⟨(t + s - 1) / s - 1, by omega⟩
      rw [hk]
      rw [Nat.add_one_le_ceil_iff, lt_div_iff₀ hsQ]
      rw [hk, add_one_mul] at hks
      have hkt : k * s < t := by omega
      exact_mod_cast hkt

/-- C6.  Pagination (1-indexed page, size in [1,100]): `total` is the full
filtered count, `pages = ⌈total / size⌉` (equivalently `(total+size-1)/size`),
`spots` is the slice from `(page-1)·size` of length at most `size`, a page
beyond the last yields an empty item list — no error — and `total`/`pages`
do not depend on the requested page. -/
theorem pagination_correct
    (db : DB) (search : Option ParkingSpotSearch) (page size : ℕ)
    (hp : 1 ≤ page) (hs1 : 1 ≤ size) (_hs2 : size ≤ 100) :
    (get_parking_spots db search page size).total = (filtered_spot_list db search).length ∧
    (get_parking_spots db search page size).pages =
      ⌈((filtered_spot_list db search).length : ℚ) / (size : ℚ)⌉₊ ∧
    (get_parking_spots db search page size).pages =
      ((filtered_spot_list db search).length + size - 1) / size ∧
    (get_parking_spots db search page size).spots =
      ((filtered_spot_list db search).drop ((page - 1) * size)).take size ∧
    (page > (get_parking_spots db search page size).pages →
      (get_parking_spots db search page size).spots = []) ∧
    (get_parking_spots db search page size).total =
      (get_parking_spots db search 1 size).total ∧
    (get_parking_spots db search page size).pages =
      (get_parking_spots db search 1 size).pages := by
  have h0 : 0 < size := hs1
  refine ⟨rfl, rfl, ceil_div_nat _ _ h0, rfl, ?_, rfl, rfl⟩
  intro hgt
  have hgt2 : page > ⌈((filtered_spot_list db search).length : ℚ) / (size : ℚ)⌉₊ := hgt
  have hceil : (filtered_spot_list db search).length ≤
      ⌈((filtered_spot_list db search).length : ℚ) / (size : ℚ)⌉₊ * size := by
    have h1 := Nat.le_ceil (((filtered_spot_list db search).length : ℚ) / (size : ℚ))
    rw [div_le_iff₀ (by exact_mod_cast h0)] at h1
    exact_mod_cast h1
  have hmul : ⌈((filtered_spot_list db search).length : ℚ) / (size : ℚ)⌉₊ * size ≤
      (page - 1) * size := Nat.mul_le_mul_right _ (by omega)
  have hdrop : (filtered_spot_list db search).drop ((page - 1) * size) = [] :=
    List.drop_eq_nil_of_le (by omega)
  show ((filtered_spot_list db search).drop ((page - 1) * size)).take size = []
  rw [hdrop, List.take_nil]

/-- C6 witness: three available spots, no filters, page 7 of size 2: total 3,
two pages, and the out-of-range page yields an empty slice. -/
theorem pagination_correct_witness :
    (get_parking_spots pDB none 7 2).total = (filtered_spot_list pDB none).length ∧
    (get_parking_spots pDB none 7 2).pages =
      ⌈((filtered_spot_list pDB none).length : ℚ) / (2 : ℚ)⌉₊ ∧
    (get_parking_spots pDB none 7 2).pages =
      ((filtered_spot_list pDB none).length + 2 - 1) / 2 ∧
    (get_parking_spots pDB none 7 2).spots =
      ((filtered_spot_list pDB none).drop ((7 - 1) * 2)).take 2 ∧
    (7 > (get_parking_spots pDB none 7 2).pages →
      (get_parking_spots pDB none 7 2).spots = []) ∧
    (get_parking_spots pDB none 7 2).total = (get_parking_spots pDB none 1 2).total ∧
    (get_parking_spots pDB none 7 2).pages = (get_parking_spots pDB none 1 2).pages :=
  pagination_correct pDB none 7 2 (by norm_num) (by norm_num) (by norm_num)

/-- C8.  listNearby: every returned entry is an available spot annotated with
its computed Haversine distance, no entry exceeds the radius, the list is a
permutation of the filtered candidate list, it is sorted non-decreasing by
distance, and the sort is stable — any pair in distance order (ties
included) that appears in candidate order also appears in that order in the
result. -/
theorem nearby_spots_correct (db : DB) (lat lon radius : ℚ) :
    (∀ x ∈ get_nearby_parking_spots db lat lon radius,
      x.distance = calculate_distance (lat : ℚ) (lon : ℚ)
        (x.spot.latitude : ℚ) (x.spot.longitude : ℚ) ∧
      x.distance ≤ ((radius : ℚ) : ℝ) ∧
      x.spot ∈ get_available_parking_spots db) ∧
    List.Sorted (fun a b : NearbySpot => a.distance ≤ b.distance)
      (get_nearby_parking_spots db lat lon radius) ∧
    (get_nearby_parking_spots db lat lon radius).Perm
      (nearby_annotated db lat lon radius) ∧
    (∀ a b : NearbySpot, a.distance ≤ b.distance →
      [a, b].Sublist (nearby_annotated db lat lon radius) →
      [a, b].Sublist (get_nearby_parking_spots db lat lon radius)) := by
  haveI hTot : IsTotal NearbySpot (fun a b => a.distance ≤ b.distance) :=
    ⟨fun a b => le_total a.distance b.distance⟩
  haveI hTrans : IsTrans NearbySpot (fun a b => a.distance ≤ b.distance) :=
    ⟨fun a b c hab hbc => le_trans hab hbc⟩
  refine ⟨?_, ?_, ?_, ?_⟩
  · intro x hx
    rw [get_nearby_parking_spots, List.mem_insertionSort] at hx
    rw [nearby_annotated, List.mem_filterMap] at hx
    obtain ⟨spot, hspot, hf⟩ := hx
    simp only at hf
    split_ifs at hf with hd
    cases hf
    exact ⟨rfl, hd, hspot⟩
  · exact List.sorted_insertionSort _ _
  · exact List.perm_insertionSort _ _
  · intro a b hab hsub
    exact List.pair_sublist_insertionSort hab hsub

/-- C7.  The Haversine distance is symmetric, zero on equal points, and on
the quarter-equator pair (0,0)–(0,90°) it equals `R·π/2 = 6371000·π/2`,
within 2 meters of 10 007 543. -/
theorem calculate_distance_properties :
    (∀ lat1 lon1 lat2 lon2 : ℝ,
      calculate_distance lat1 lon1 lat2 lon2 = calculate_distance lat2 lon2 lat1 lon1) ∧
    (∀ lat lon : ℝ, calculate_distance lat lon lat lon = 0) ∧
    calculate_distance 0 0 0 90 = 6371000 * Real.pi / 2 ∧
    |calculate_distance 0 0 0 90 - 10007543| < 2 := by
  have key : ∀ u v : ℝ, Real.sin ((u - v) / 2) ^ 2 = Real.sin ((v - u) / 2) ^ 2 := by
    intro u v
    rw [show (u - v) / 2 = -((v - u) / 2) by ring, Real.sin_neg]
    ring
  have hsym : ∀ lat1 lon1 lat2 lon2 : ℝ,
      calculate_distance lat1 lon1 lat2 lon2 = calculate_distance lat2 lon2 lat1 lon1 := by
    intro lat1 lon1 lat2 lon2
    simp only [calculate_distance]
    rw [key (lat2 * Real.pi / 180) (lat1 * Real.pi / 180),
      key (lon2 * Real.pi / 180) (lon1 * Real.pi / 180),
      mul_comm (Real.cos (lat1 * Real.pi / 180)) (Real.cos (lat2 * Real.pi / 180))]
  have hself : ∀ lat lon : ℝ, calculate_distance lat lon lat lon = 0 := by
    intro lat lon
    simp [calculate_distance, atan2, Real.arctan_zero]
  have hhalf : Real.sin ((90 * Real.pi / 180 - 0 * Real.pi / 180) / 2) ^ 2 = 1 / 2 := by
    rw [show (90 * Real.pi / 180 - 0 * Real.pi / 180) / 2 = Real.pi / 4 by ring,
      Real.sin_pi_div_four, div_pow, Real.sq_sqrt (by norm_num : (2 : ℝ) ≥ 0)]
    norm_num
  have hs2 : (0 : ℝ) < Real.sqrt (1 / 2) := Real.sqrt_pos.2 (by norm_num)
  have hval : calculate_distance 0 0 0 90 = 6371000 * Real.pi / 2 := by
    simp only [calculate_distance]
    rw [show (0 : ℝ) * Real.pi / 180 = 0 by ring] at *
    rw [hhalf]
    rw [show (0 : ℝ) - 0 = 0 by ring, Real.cos_zero]
    rw [show Real.sin (0 / 2) ^ 2 + 1 * 1 * (1 / 2 : ℝ) = 1 / 2 by
      simp [Real.sin_zero]]
    rw [show (1 : ℝ) - 1 / 2 = 1 / 2 by norm_num]
    rw [atan2, if_pos hs2, div_self (ne_of_gt hs2), Real.arctan_one]
    ring
  refine ⟨hsym, hself, hval, ?_⟩
  rw [hval, abs_lt]
  have hpi1 := Real.pi_gt_d6
  have hpi2 := Real.pi_lt_d6
  constructor <;> nlinarith
